import Mathlib

/-!
Verification of `gpu_worker.py` (a polling GPU inference worker).

This file shallowly embeds the worker's data model and operations in Lean:

* JSON documents (job payloads, settings, backend responses) become the
  inductive type `JVal`, with Python-style truthiness, `dict.get` defaults
  and the `in` membership operator.
* The schedule gate `is_within_schedule` is embedded as a pure function
  parameterised by the environment (whether the configured timezone
  resolved, and the current weekday / "HH:MM" time strings that
  `datetime.now(tz).strftime` would return in the resolved timezone).
* The inference call `run_sdxl` and job dispatch `process_job` are embedded
  as pure functions of the backend's HTTP outcome; `run_sdxl`'s outbound
  request construction is kept as `sdxl_request`.
* One iteration of the steady-state `worker_loop` body becomes
  `worker_iter`, a pure step function from a `LoopState` (the loop-local
  variables `errors`, `settings`, `settings_version`) and an environment
  record `IterEnv` (poll outcome, backend outcome, wall clock, whether the
  completion POST raises) to an `IterResult` that records the new state and
  the iteration's observable effects (sleep performed, loop exit, value
  passed to `save_settings`, payload posted to the completion endpoint).

Modelling notes (deviations forced by the shallow embedding):
* JSON numbers are modelled as integers (`Int`); no claim involves
  fractional values.  The float `cfg_scale` default 7.0 appears as 7, and
  the measured wall-clock duration is an abstract integer parameter.
* Logging has no semantic effect and is dropped, except that the log line
  `job['id'][:8]` in `process_job` raises for a job whose `id` is absent or
  not sliceable; `worker_iter` models that exception path via `job_id_ok`,
  and the theorems about `process_job` carry `job_id_ok` as a hypothesis.
* Operations that raise `TypeError` in Python on ill-typed documents (for
  example comparing a non-string `start_time`, or membership tests on
  numbers) are given inert default results; every theorem below either
  quantifies only over well-formed documents or constrains these cases by
  hypothesis.
* `save_settings` is modelled as always succeeding; the value it is given
  is recorded in the iteration result (`IterResult.saved`).
* A truthy non-dict settings document would raise at the gate check
  (`settings.get('schedule', {})`) in Python; the model's `get?` returns
  the default on a non-dict, so loop-level theorems implicitly range over
  dict-or-None settings documents, the only shapes the worker produces.
* `KeyboardInterrupt` (manual cancellation) is outside the model; the only
  modelled loop exit is the HTTP 401 `return`.
-/

/-- JSON-like values: the common shape of the poll response body, jobs,
settings documents and inference backend responses in `gpu_worker.py`. -/
inductive JVal where
  | null : JVal
  | bool : Bool → JVal
  | num : Int → JVal
  | str : String → JVal
  | arr : List JVal → JVal
  | obj : List (String × JVal) → JVal

/-- Python truthiness (`bool(x)`): `None`, `False`, `0`, `""`, `[]` and
empty dicts are falsy. -/
def JVal.truthy : JVal → Bool
  | .null => false
  | .bool b => b
  | .num n => n != 0
  | .str s => s != ""
  | .arr l => !l.isEmpty
  | .obj l => !l.isEmpty

/-- Python `==` against a string literal: true only for an equal string. -/
def JVal.isStrEq : JVal → String → Bool
  | .str t, s => t == s
  | _, _ => false

/-- Python substring test (`needle in hay` for strings). -/
def strContains (hay needle : String) : Bool :=
  (List.range (hay.length + 1)).any fun i => needle.data.isPrefixOf (hay.data.drop i)

/-- Python `s in container` for a string `s`: element membership for lists,
key membership for dicts, substring for strings.  Other containers raise
`TypeError` in Python; they are modelled as `false` and never arise from
the well-formed documents the theorems quantify over. -/
def JVal.pyInStr : JVal → String → Bool
  | .arr l, s => l.any fun x => x.isStrEq s
  | .obj l, s => l.any fun p => p.1 == s
  | .str t, s => strContains t s
  | _, _ => false

/-- Key lookup on a dict (`d[k]` when present); `none` for a missing key or
a non-dict. -/
def JVal.get? : JVal → String → Option JVal
  | .obj l, k => l.lookup k
  | _, _ => none

/-- Python `d.get(k, default)`. -/
def JVal.getD (v : JVal) (k : String) (d : JVal) : JVal :=
  (v.get? k).getD d

/-- Key presence on a dict. -/
def JVal.hasKey (v : JVal) (k : String) : Bool :=
  (v.get? k).isSome

/-- `d.get(k, default)` where the call site consumes the value as a string
(the "HH:MM" schedule bounds).  A present non-string value would raise a
`TypeError` at the Python comparison; the model returns the default. -/
def JVal.getStrD (v : JVal) (k : String) (d : String) : String :=
  match v.get? k with
  | some (.str s) => s
  | _ => d

/-- `d.get(k, default)` consumed as an integer (the `settings_version`
field).  A present non-numeric value would raise a `TypeError` at the
Python comparison; the model returns the default. -/
def JVal.getIntD (v : JVal) (k : String) (d : Int) : Int :=
  match v.get? k with
  | some (.num n) => n
  | _ => d

/-- Is the value a dict? -/
def JVal.isObj : JVal → Bool
  | .obj _ => true
  | _ => false

/-- The list underlying a JSON array; iteration over non-lists is outside
the modelled well-formed documents. -/
def JVal.asArr : JVal → List JVal
  | .arr l => l
  | _ => []

/-- Assignment `d[k] = x` on an association list: replace the first binding
of `k` in place, or append a new binding. -/
def setPairs : List (String × JVal) → String → JVal → List (String × JVal)
  | [], k, x => [(k, x)]
  | (k', v') :: rest, k, x =>
    if k' == k then (k, x) :: rest else (k', v') :: setPairs rest k x

/-- Python `d[k] = x` for dicts (the only use in the source assigns into a
dict, `result['inference_time'] = elapsed`). -/
def JVal.setKey : JVal → String → JVal → JVal
  | .obj l, k, x => .obj (setPairs l k x)
  | v, _, _ => v

/-- `v[0]` on a truthy value: head of a list, first character of a string.
Used only after a truthiness check, so the empty cases are unreachable. -/
def JVal.firstItem : JVal → JVal
  | .arr (x :: _) => x
  | .str s => .str (s.take 1)
  | _ => .null

/-- Python `str(x)` as interpolated into f-strings.  Only the string case
is exercised by the theorems (service tags); container renderings are
abbreviated. -/
def JVal.pyStr : JVal → String
  | .null => "None"
  | .bool true => "True"
  | .bool false => "False"
  | .num n => toString n
  | .str s => s
  | .arr _ => "[...]"
  | .obj _ => "\x7b...\x7d"

/-- Lexicographic comparison of character lists by code point, the order
Python uses for `str <= str`. -/
def lexLe : List Char → List Char → Bool
  | [], _ => true
  | _ :: _, [] => false
  | a :: as, b :: bs =>
    if a.toNat < b.toNat then true
    else if b.toNat < a.toNat then false
    else lexLe as bs

/-- Python string `<=` (code-point lexicographic). -/
def pyStrLe (a b : String) : Bool := lexLe a.data b.data

/-- Hardcoded poll interval from the source (`POLL_INTERVAL = 5`). -/
def POLL_INTERVAL : Nat := 5

/-- `is_within_schedule(schedule)` from the source.  `tzOk` abstracts
whether `ZoneInfo(schedule.get('timezone', 'UTC'))` resolved (a missing
`zoneinfo` module raises `ImportError` and an unknown key raises a
`KeyError` subclass, both caught); `day` and `tnow` are the
`now.strftime('%a').lower()[:3]` weekday and `now.strftime('%H:%M')` time
in the resolved timezone. -/
def is_within_schedule (tzOk : Bool) (day tnow : String) (schedule : JVal) : Bool :=
  if !schedule.truthy || !(schedule.getD "enabled" JVal.null).truthy then true
  else if !tzOk then true
  else
    ((schedule.getD "rules" (JVal.arr [])).asArr).any fun rule =>
      (rule.getD "days" (JVal.arr [])).pyInStr day
        && pyStrLe (rule.getStrD "start_time" "00:00") tnow
        && pyStrLe tnow (rule.getStrD "end_time" "23:59")

/-- Outcome of one HTTP round trip as seen by the caller: either the call
raised (transport failure, timeout), or it returned a status code together
with the result of decoding the body as JSON (`resp.json()` raises on an
undecodable body, which the `.error` case carries). -/
inductive HttpOutcome where
  | exc (msg : String)
  | resp (status : Nat) (body : Except String JVal)

/-- The fixed request body `run_sdxl` POSTs to the local backend
(`SD_SERVER/txt2img`); `cfg_scale`'s float default 7.0 is modelled as the
integer 7. -/
def sdxl_request (params : JVal) : JVal :=
  .obj [("prompt", params.getD "prompt" (.str "")),
        ("negative_prompt", params.getD "negative_prompt" (.str "")),
        ("width", params.getD "width" (.num 1024)),
        ("height", params.getD "height" (.num 1024)),
        ("steps", params.getD "steps" (.num 20)),
        ("cfg_scale", params.getD "cfg_scale" (.num 7)),
        ("seed", params.getD "seed" (.num (-1))),
        ("sample_method", .str "euler_a")]

/-- `run_sdxl(params)` from the source: sends `sdxl_request params` to the
local inference backend and maps the backend's outcome `r` to a result
dict.  The Python `try`/`except` around the whole body makes the function
total: every branch, including a raised transport exception, produces a
dict. -/
def run_sdxl (params : JVal) (r : HttpOutcome) : JVal :=
  let _req := sdxl_request params
  match r with
  | .exc m => .obj [("error", .str m)]
  | .resp status body =>
    if status ≠ 200 then .obj [("error", .str ("Server error " ++ toString status))]
    else
      match body with
      | .error m => .obj [("error", .str m)]
      | .ok j =>
        if j.pyInStr "images" && (j.getD "images" JVal.null).truthy then
          .obj [("image", (j.getD "images" JVal.null).firstItem),
                ("seed", j.getD "seed" (.num (-1)))]
        else if j.pyInStr "image" then
          .obj [("image", j.getD "image" JVal.null),
                ("seed", j.getD "seed" (.num (-1)))]
        else .obj [("error", .str "No image")]

/-- Python slicing `x[:8]` succeeds on strings and lists; other values
raise `TypeError`. -/
def sliceable : JVal → Bool
  | .str _ => true
  | .arr _ => true
  | _ => false

/-- Whether the log line `job['id'][:8]` in `process_job` succeeds: the
job must be a dict with a sliceable `id`.  When it fails, the raised
exception escapes `process_job` and is absorbed by the loop's generic
handler. -/
def job_id_ok (job : JVal) : Bool :=
  match job.get? "id" with
  | some v => sliceable v
  | none => false

/-- `process_job(job)` from the source: reject a non-"sdxl" service tag
without contacting the backend, otherwise dispatch to `run_sdxl` and wrap
the outcome, attaching the measured wall-clock duration `elapsed` to a
success.  The log line's `job['id'][:8]` (which raises for a bad id) is
modelled at the call site in `worker_iter` via `job_id_ok`; theorems about
`process_job` itself assume `job_id_ok`. -/
def process_job (backend : HttpOutcome) (elapsed : Int) (job : JVal) : JVal :=
  let service := job.getD "service" (.str "sdxl")
  let params := job.getD "params" (.obj [])
  if service.isStrEq "sdxl" = false then
    .obj [("error", .str ("Unsupported service: " ++ service.pyStr))]
  else
    let result := run_sdxl params backend
    if result.pyInStr "error" then .obj [("error", result.getD "error" JVal.null)]
    else .obj [("result", result.setKey "inference_time" (.num elapsed))]

/-- The loop-local mutable state of `worker_loop`: the consecutive-failure
counter `errors`, the in-memory settings document (`JVal.null` plays
Python's `None`), and the held `settings_version`. -/
structure LoopState where
  errors : Nat
  settings : JVal
  settings_version : Int

/-- Environment of one loop iteration: whether the schedule's timezone
resolves, the current weekday/time strings, the poll outcome, the
inference backend outcome, the measured inference duration, and whether
the completion POST raises. -/
structure IterEnv where
  tzOk : Bool
  day : String
  tnow : String
  poll : HttpOutcome
  backend : HttpOutcome
  elapsed : Int
  compExc : Bool

/-- Observable outcome of one loop iteration: the successor state, the
sleep performed (in seconds) if any, whether the loop exited, the document
passed to `save_settings` if any, and the payload posted to the completion
endpoint if the POST was issued. -/
structure IterResult where
  state : LoopState
  sleep : Option Nat
  stopped : Bool
  saved : Option JVal
  completed : Option JVal

/-- The schedule gate test at the top of the loop body:
`if settings and not is_within_schedule(settings.get('schedule', {}))`. -/
def gate_blocks (settings : JVal) (tzOk : Bool) (day tnow : String) : Bool :=
  settings.truthy && !(is_within_schedule tzOk day tnow (settings.getD "schedule" (.obj [])))

/-- The settings-sync block of the loop body (source lines 259-267):
returns the new in-memory settings, the new held version, and the document
passed to `save_settings` (if any).  Note the source order: when the
incoming version is strictly newer, the in-memory `settings` variable is
overwritten by `config_sync.get('settings')` before the truthiness check,
so a falsy payload still replaces the in-memory settings while skipping
both the save and the version update. -/
def sync_settings (data : JVal) (settings : JVal) (ver : Int) : JVal × Int × Option JVal :=
  if (data.getD "config_sync" JVal.null).truthy then
    let cs := data.getD "config_sync" JVal.null
    let new_ver := cs.getIntD "settings_version" 0
    if ver < new_ver then
      let s' := cs.getD "settings" JVal.null
      if s'.truthy then (s', new_ver, some s')
      else (s', ver, none)
    else (settings, ver, none)
  else (settings, ver, none)

/-- The `errors += 1; time.sleep(min(POLL_INTERVAL * errors, 60))` pattern
shared by the non-200 branch and the generic exception handler. -/
def backoffResult (s : LoopState) : IterResult :=
  ⟨⟨s.errors + 1, s.settings, s.settings_version⟩,
   some (min (POLL_INTERVAL * (s.errors + 1)) 60), false, none, none⟩

/-- One steady-state iteration of `worker_loop`'s `while True` body.
Faithful to the source control flow: schedule gate, poll, 401 fatal
return, non-200 backoff, JSON decode failure into the generic handler,
settings sync, then job dispatch (resetting `errors` to 0 first) with a
fire-once completion POST whose exception lands in the generic handler, or
the no-job sleep.  `KeyboardInterrupt` is not modelled. -/
def worker_iter (env : IterEnv) (s : LoopState) : IterResult :=
  if gate_blocks s.settings env.tzOk env.day env.tnow then
    ⟨s, some POLL_INTERVAL, false, none, none⟩
  else
    match env.poll with
    | .exc _ => backoffResult s
    | .resp status body =>
      if status = 401 then ⟨s, none, true, none, none⟩
      else if status ≠ 200 then backoffResult s
      else
        match body with
        | .error _ => backoffResult s
        | .ok data =>
          let sv := sync_settings data s.settings s.settings_version
          let job := data.getD "job" JVal.null
          if job.truthy then
            if job_id_ok job then
              let result := process_job env.backend env.elapsed job
              if env.compExc then
                ⟨⟨0 + 1, sv.1, sv.2.1⟩, some (min (POLL_INTERVAL * (0 + 1)) 60),
                 false, sv.2.2, some result⟩
              else
                ⟨⟨0, sv.1, sv.2.1⟩, none, false, sv.2.2, some result⟩
            else
              ⟨⟨0 + 1, sv.1, sv.2.1⟩, some (min (POLL_INTERVAL * (0 + 1)) 60),
               false, sv.2.2, none⟩
          else
            ⟨⟨0, sv.1, sv.2.1⟩, some POLL_INTERVAL, false, sv.2.2, none⟩

/-- Iterated loop steps: final state plus the per-iteration sleeps, in
order. -/
def runIters : List IterEnv → LoopState → LoopState × List (Option Nat)
  | [], s => (s, [])
  | env :: rest, s =>
    let r := worker_iter env s
    let t := runIters rest r.state
    (t.1, r.sleep :: t.2)

/-- A transient poll failure in the sense of the backoff policy: a raised
transport exception or a non-200, non-401 status. -/
def isTransientFail : HttpOutcome → Bool
  | .exc _ => true
  | .resp st _ => st ≠ 200 && st ≠ 401

/-! Concrete documents and environments used by the witnesses and
counterexamples below. -/

/-- An enabled schedule permitting Mondays 09:00-17:00. -/
def sched_ex : JVal :=
  .obj [("enabled", .bool true),
        ("rules", .arr [.obj [("days", .arr [.str "mon"]),
                              ("start_time", .str "09:00"),
                              ("end_time", .str "17:00")]])]

/-- A well-formed backend success body carrying one image and a seed. -/
def j42 : JVal := .obj [("images", .arr [.str "abc"]), ("seed", .num 42)]

/-- A well-formed sdxl job. -/
def jobEx : JVal := .obj [("id", .str "deadbeef"), ("service", .str "sdxl")]

/-- A job with an unsupported service tag. -/
def jobUnsup : JVal := .obj [("id", .str "j1"), ("service", .str "unknown")]

/-- A job without a service tag. -/
def jobNoSvc : JVal := .obj [("id", .str "j2")]

/-- A poll response carrying a job. -/
def dataJob : JVal := .obj [("job", jobEx)]

/-- A poll response whose config_sync has a strictly newer version but a
falsy (empty) settings document. -/
def dataCfgFalsy : JVal :=
  .obj [("config_sync", .obj [("settings_version", .num 5), ("settings", .obj [])])]

/-- A poll response whose config_sync carries a strictly newer version and
a truthy settings document. -/
def dataCfgNew : JVal :=
  .obj [("config_sync", .obj [("settings_version", .num 2),
                              ("settings", .obj [("settings_version", .num 2)])])]

/-- Fresh loop state: no failures, no settings, version 0. -/
def s0 : LoopState := ⟨0, JVal.null, 0⟩

/-- Loop state after three consecutive transient failures. -/
def sErr3 : LoopState := ⟨3, JVal.null, 0⟩

/-- Loop state holding settings whose enabled schedule has no rules, so
the gate forbids polling at any time. -/
def sBlk : LoopState :=
  ⟨0, .obj [("schedule", .obj [("enabled", .bool true), ("rules", .arr [])])], 0⟩

/-- Iteration: successful poll delivering `dataCfgFalsy`. -/
def envC1 : IterEnv := ⟨true, "mon", "12:00", .resp 200 (.ok dataCfgFalsy), .exc "", 0, false⟩

/-- Iteration: successful poll delivering a job; the backend transport
fails and the completion POST raises. -/
def envC2 : IterEnv := ⟨true, "mon", "12:00", .resp 200 (.ok dataJob), .exc "boom", 0, true⟩

/-- Iteration: successful poll delivering a job whose completion POST
raises (used against a state with prior failures). -/
def envC3 : IterEnv := ⟨true, "mon", "12:00", .resp 200 (.ok dataJob), .exc "net down", 7, true⟩

/-- Iteration: successful poll delivering `dataCfgNew`, no job. -/
def envS : IterEnv := ⟨true, "mon", "12:00", .resp 200 (.ok dataCfgNew), .exc "", 0, false⟩

/-- Iteration: poll returns HTTP 500. -/
def envF : IterEnv := ⟨true, "mon", "12:00", .resp 500 (.ok JVal.null), .exc "", 0, false⟩

/-- Iteration: poll returns HTTP 401. -/
def env401 : IterEnv := ⟨true, "mon", "12:00", .resp 401 (.ok JVal.null), .exc "", 0, false⟩

/-- Iteration environment for a schedule-gated state. -/
def envBlk : IterEnv := ⟨true, "mon", "12:00", .exc "", .exc "", 0, false⟩

/-! ## Theorems -/

/-- Claim C5: the schedule gate.  A falsy schedule or a falsy/missing
enabled flag always permits polling; an enabled schedule with a resolved
timezone permits polling iff some rule's day set contains the current
weekday and the current "HH:MM" time lies inside that rule's inclusive
lexicographic window. -/
theorem C5_schedule_gate (tzOk : Bool) (day tnow : String) (schedule : JVal) :
    ((schedule.truthy = false ∨ (schedule.getD "enabled" JVal.null).truthy = false) →
      is_within_schedule tzOk day tnow schedule = true) ∧
    (schedule.truthy = true → (schedule.getD "enabled" JVal.null).truthy = true →
      tzOk = true →
      (is_within_schedule tzOk day tnow schedule = true ↔
        ∃ rule ∈ (schedule.getD "rules" (JVal.arr [])).asArr,
          (rule.getD "days" (JVal.arr [])).pyInStr day = true ∧
          pyStrLe (rule.getStrD "start_time" "00:00") tnow = true ∧
          pyStrLe tnow (rule.getStrD "end_time" "23:59") = true)) := by
  constructor
  · intro h
    unfold is_within_schedule
    rcases h with h | h <;> simp [h]
  · intro hs he htz
    subst htz
    unfold is_within_schedule
    simp [hs, he, List.any_eq_true, and_assoc]

/-- Witness for C5 at concrete inputs: an absent (`None`) schedule always
permits, and the characterization instantiated at an enabled
Monday-09:00-17:00 schedule. -/
theorem C5_witness :
    is_within_schedule true "mon" "12:00" JVal.null = true ∧
    (is_within_schedule true "mon" "12:00" sched_ex = true ↔
      ∃ rule ∈ (sched_ex.getD "rules" (JVal.arr [])).asArr,
        (rule.getD "days" (JVal.arr [])).pyInStr "mon" = true ∧
        pyStrLe (rule.getStrD "start_time" "00:00") "12:00" = true ∧
        pyStrLe "12:00" (rule.getStrD "end_time" "23:59") = true) :=
  ⟨(C5_schedule_gate true "mon" "12:00" JVal.null).1 (Or.inl (by decide)),
   (C5_schedule_gate true "mon" "12:00" sched_ex).2 (by decide) (by decide) rfl⟩

/-- Claim C6: timezone fail-open.  For an enabled (truthy) schedule whose
timezone fails to resolve, `is_within_schedule` returns true; totality
(never raising) holds by construction of the embedding, mirroring the
`except (ImportError, KeyError)` in the source that absorbs the
resolution failure. -/
theorem C6_timezone_fail_open (day tnow : String) (schedule : JVal)
    (hs : schedule.truthy = true)
    (he : (schedule.getD "enabled" JVal.null).truthy = true) :
    is_within_schedule false day tnow schedule = true := by
  unfold is_within_schedule
  simp [hs, he]

/-- Witness for C6: the enabled example schedule with an unresolvable
timezone permits polling. -/
theorem C6_witness :
    sched_ex.truthy = true ∧ is_within_schedule false "mon" "20:00" sched_ex = true :=
  ⟨by decide, C6_timezone_fail_open "mon" "20:00" sched_ex (by decide) (by decide)⟩

/-- On a dict, the Python `in` operator agrees with key presence. -/
theorem obj_pyInStr_eq_hasKey (l : List (String × JVal)) (k : String) :
    (JVal.obj l).pyInStr k = (JVal.obj l).hasKey k := by
  induction l with
  | nil => rfl
  | cons p rest ih =>
    simp only [JVal.pyInStr, JVal.hasKey, JVal.get?, List.any_cons, List.lookup] at *
    by_cases h : p.1 = k
    · subst h
      simp
    · have h2 : (p.1 == k) = false := by simp [h]
      have h3 : (k == p.1) = false := beq_eq_false_iff_ne.mpr (Ne.symm h)
      simp [h2, h3, ih]

/-- `run_sdxl` only ever returns a dict. -/
theorem run_sdxl_isObj (params : JVal) (r : HttpOutcome) :
    (run_sdxl params r).isObj = true := by
  unfold run_sdxl
  cases r with
  | exc m => rfl
  | resp status body =>
    dsimp only
    split
    · rfl
    · cases body with
      | error m => rfl
      | ok j =>
        dsimp only
        split
        · rfl
        · split <;> rfl

/-- Looking up a key after `setPairs` assigned it yields the new value. -/
theorem lookup_setPairs_self (l : List (String × JVal)) (k : String) (x : JVal) :
    List.lookup k (setPairs l k x) = some x := by
  induction l with
  | nil => simp [setPairs, List.lookup]
  | cons p rest ih =>
    by_cases h : p.1 = k
    · subst h
      simp [setPairs, List.lookup]
    · have h2 : (p.1 == k) = false := by simp [h]
      have h3 : (k == p.1) = false := beq_eq_false_iff_ne.mpr (Ne.symm h)
      simp [setPairs, h2, List.lookup, h3, ih]

/-- After `d[k] = x` on a dict, the key `k` is present. -/
theorem setKey_hasKey_self (l : List (String × JVal)) (k : String) (x : JVal) :
    ((JVal.obj l).setKey k x).hasKey k = true := by
  simp [JVal.setKey, JVal.hasKey, JVal.get?, lookup_setPairs_self]

/-- Claim C7: `run_sdxl` response mapping.  A raised transport exception
maps to an error dict carrying the exception description; a non-200
status N maps to the error "Server error N"; a 200 body with a non-empty
`images` list maps to its first image with the reported seed (default -1);
and a 200 dict body with neither a usable `images` list nor an `image`
field maps to the error "No image".  Totality (no uncaught failure) holds
by construction of the embedding, mirroring the `except Exception` that
wraps the whole source function. -/
theorem C7_inference_response_mapping (params : JVal) :
    (∀ m, run_sdxl params (.exc m) = .obj [("error", .str m)]) ∧
    (∀ st body, st ≠ 200 →
      run_sdxl params (.resp st body)
        = .obj [("error", .str ("Server error " ++ toString st))]) ∧
    (∀ j x xs, j.get? "images" = some (.arr (x :: xs)) →
      run_sdxl params (.resp 200 (.ok j))
        = .obj [("image", x), ("seed", j.getD "seed" (.num (-1)))]) ∧
    (∀ j, j.isObj = true → (j.getD "images" JVal.null).truthy = false →
      j.hasKey "image" = false →
      run_sdxl params (.resp 200 (.ok j)) = .obj [("error", .str "No image")]) := by
  refine ⟨fun m => rfl, fun st body h => ?_, fun j x xs h => ?_,
    fun j hobj himgs himg => ?_⟩
  · simp [run_sdxl, h]
  · have hin : j.pyInStr "images" = true := by
      cases j <;> simp [JVal.get?] at h
      rw [obj_pyInStr_eq_hasKey]
      simp [JVal.hasKey, JVal.get?, h]
    have hgd : j.getD "images" JVal.null = .arr (x :: xs) := by
      simp [JVal.getD, h]
    simp [run_sdxl, hin, hgd, JVal.truthy, JVal.firstItem]
  · have himgs2 : (j.pyInStr "images" && (j.getD "images" JVal.null).truthy) = false := by
      simp [himgs]
    have himg2 : j.pyInStr "image" = false := by
      cases j <;> simp [JVal.isObj] at hobj
      rw [obj_pyInStr_eq_hasKey]
      exact himg
    simp [run_sdxl, himgs2, himg2]

/-- Witness for C7: the three response shapes from the spec's examples. -/
theorem C7_witness :
    run_sdxl (JVal.obj []) (.resp 500 (.ok JVal.null))
      = .obj [("error", .str "Server error 500")] ∧
    run_sdxl (JVal.obj []) (.resp 200 (.ok j42))
      = .obj [("image", .str "abc"), ("seed", j42.getD "seed" (.num (-1)))] ∧
    run_sdxl (JVal.obj []) (.resp 200 (.ok (.obj [("foo", .num 1)])))
      = .obj [("error", .str "No image")] :=
  ⟨(C7_inference_response_mapping (JVal.obj [])).2.1 500 (.ok JVal.null) (by decide),
   (C7_inference_response_mapping (JVal.obj [])).2.2.1 j42 (.str "abc") [] rfl,
   (C7_inference_response_mapping (JVal.obj [])).2.2.2 (.obj [("foo", .num 1)]) rfl
     (by decide) rfl⟩

/-- Claim C8: a job whose declared service tag is a string other than
"sdxl" is rejected with the error "Unsupported service: tag".  The result
is the same for every backend outcome, which is the embedding's expression
of "no call is made to the inference backend". -/
theorem C8_unsupported_service (backend : HttpOutcome) (elapsed : Int) (job : JVal)
    (svc : String) (hsvc : job.get? "service" = some (.str svc)) (hne : svc ≠ "sdxl")
    (hid : job_id_ok job = true) :
    process_job backend elapsed job
      = .obj [("error", .str ("Unsupported service: " ++ svc))] := by
  have h1 : job.getD "service" (.str "sdxl") = .str svc := by
    simp [JVal.getD, hsvc]
  have h2 : (JVal.str svc).isStrEq "sdxl" = false := by
    simp [JVal.isStrEq, hne]
  simp [process_job, h1, h2, JVal.pyStr]

/-- Witness for C8: the spec's `service: "unknown"` example, under two
different backend outcomes (the result is identical, so the backend was
not consulted). -/
theorem C8_witness :
    process_job (.exc "unreachable") 0 jobUnsup
      = .obj [("error", .str ("Unsupported service: " ++ "unknown"))] ∧
    process_job (.resp 200 (.ok j42)) 0 jobUnsup
      = .obj [("error", .str ("Unsupported service: " ++ "unknown"))] :=
  ⟨C8_unsupported_service (.exc "unreachable") 0 jobUnsup "unknown" rfl (by decide) rfl,
   C8_unsupported_service (.resp 200 (.ok j42)) 0 jobUnsup "unknown" rfl (by decide) rfl⟩

/-- Claim C9: JobResult exclusivity.  For every job (with the `id` the log
line requires), `process_job` returns a dict with exactly one of the keys
`error` and `result`, and a `result` payload always carries the
`inference_time` measurement. -/
theorem C9_jobresult_exclusive (backend : HttpOutcome) (elapsed : Int) (job : JVal)
    (hid : job_id_ok job = true) (out : JVal)
    (hout : out = process_job backend elapsed job) :
    ((out.hasKey "error" = true ∧ out.hasKey "result" = false) ∨
      (out.hasKey "error" = false ∧ out.hasKey "result" = true)) ∧
    (out.hasKey "result" = true →
      (out.getD "result" JVal.null).hasKey "inference_time" = true) := by
  subst hout
  unfold process_job
  dsimp only
  split
  · exact ⟨Or.inl ⟨rfl, rfl⟩, fun h2 => nomatch h2⟩
  · have hobj := run_sdxl_isObj (job.getD "params" (JVal.obj [])) backend
    generalize run_sdxl (job.getD "params" (JVal.obj [])) backend = result at hobj ⊢
    cases result with
    | obj l =>
      by_cases he : (JVal.obj l).pyInStr "error" = true
      · simp only [he, if_true]
        exact ⟨Or.inl ⟨rfl, rfl⟩, fun h2 => nomatch h2⟩
      · simp only [Bool.not_eq_true] at he
        simp only [he, Bool.false_eq_true, if_false]
        refine ⟨Or.inr ⟨rfl, rfl⟩, fun _ => ?_⟩
        have : (JVal.obj [("result", (JVal.obj l).setKey "inference_time" (.num elapsed))]).getD
            "result" JVal.null = (JVal.obj l).setKey "inference_time" (.num elapsed) := rfl
        rw [this]
        exact setKey_hasKey_self l "inference_time" (.num elapsed)
    | null => simp [JVal.isObj] at hobj
    | bool b => simp [JVal.isObj] at hobj
    | num n => simp [JVal.isObj] at hobj
    | str t => simp [JVal.isObj] at hobj
    | arr a => simp [JVal.isObj] at hobj

/-- Witness for C9 at a successful inference of the example job. -/
theorem C9_witness :
    (((process_job (.resp 200 (.ok j42)) 3 jobEx).hasKey "error" = true ∧
      (process_job (.resp 200 (.ok j42)) 3 jobEx).hasKey "result" = false) ∨
     ((process_job (.resp 200 (.ok j42)) 3 jobEx).hasKey "error" = false ∧
      (process_job (.resp 200 (.ok j42)) 3 jobEx).hasKey "result" = true)) ∧
    ((process_job (.resp 200 (.ok j42)) 3 jobEx).hasKey "result" = true →
      ((process_job (.resp 200 (.ok j42)) 3 jobEx).getD "result" JVal.null).hasKey
        "inference_time" = true) :=
  C9_jobresult_exclusive (.resp 200 (.ok j42)) 3 jobEx rfl _ rfl

/-- Claim C10 (implicit): a job with no `service` key defaults to "sdxl",
passes the supported-service check, and is dispatched to the inference
backend: its outcome is exactly the dispatch branch applied to the
backend's response, never the "Unsupported service" rejection. -/
theorem C10_default_service (backend : HttpOutcome) (elapsed : Int) (job : JVal)
    (hsvc : job.get? "service" = none) (hid : job_id_ok job = true) :
    process_job backend elapsed job
      = (if (run_sdxl (job.getD "params" (.obj [])) backend).pyInStr "error" then
          .obj [("error", (run_sdxl (job.getD "params" (.obj [])) backend).getD
            "error" JVal.null)]
        else
          .obj [("result", (run_sdxl (job.getD "params" (.obj [])) backend).setKey
            "inference_time" (.num elapsed))]) := by
  have h1 : job.getD "service" (.str "sdxl") = .str "sdxl" := by
    simp [JVal.getD, hsvc]
  simp [process_job, h1, JVal.isStrEq]

/-- Witness for C10: a job carrying only an id is dispatched and yields the
backend's image as a result payload. -/
theorem C10_witness :
    process_job (.resp 200 (.ok j42)) 3 jobNoSvc
      = .obj [("result", .obj [("image", .str "abc"), ("seed", .num 42),
          ("inference_time", .num 3)])] :=
  (C10_default_service (.resp 200 (.ok j42)) 3 jobNoSvc rfl rfl).trans rfl

/-- A transient poll failure (with the gate open) increments the counter
and sleeps the linear-capped backoff; settings and version are untouched. -/
theorem worker_iter_fail (env : IterEnv) (s : LoopState)
    (hf : isTransientFail env.poll = true)
    (hg : gate_blocks s.settings env.tzOk env.day env.tnow = false) :
    worker_iter env s = backoffResult s := by
  unfold worker_iter
  cases hp : env.poll with
  | exc m => simp [hg]
  | resp st body =>
    rw [hp] at hf
    simp only [isTransientFail, Bool.and_eq_true, decide_eq_true_eq] at hf
    simp [hg, hf.1, hf.2]

/-- Iterating transient failures from a clean counter: after N of them the
counter is N, settings are untouched, and the last sleep is the claimed
`min(POLL_INTERVAL * N, 60)`. -/
theorem runIters_fail_chain (envs : List IterEnv) :
    ∀ s : LoopState,
      (∀ env ∈ envs, isTransientFail env.poll = true ∧
        gate_blocks s.settings env.tzOk env.day env.tnow = false) →
      (runIters envs s).1.errors = s.errors + envs.length ∧
      (runIters envs s).1.settings = s.settings ∧
      (runIters envs s).1.settings_version = s.settings_version ∧
      (envs ≠ [] → (runIters envs s).2.getLast?
        = some (some (min (POLL_INTERVAL * (s.errors + envs.length)) 60))) := by
  induction envs with
  | nil =>
    intro s _
    exact ⟨rfl, rfl, rfl, fun hne => absurd rfl hne⟩
  | cons env rest ih =>
    intro s h
    have hstep := worker_iter_fail env s (h env (.head _)).1 (h env (.head _)).2
    have hrest : ∀ e ∈ rest, isTransientFail e.poll = true ∧
        gate_blocks (backoffResult s).state.settings e.tzOk e.day e.tnow = false :=
      fun e he => (h e (.tail _ he))
    have hrun : runIters (env :: rest) s
        = ((runIters rest (backoffResult s).state).1,
           (backoffResult s).sleep :: (runIters rest (backoffResult s).state).2) := by
      simp [runIters, hstep]
    obtain ⟨ih1, ih2, ih3, ih4⟩ := ih (backoffResult s).state hrest
    have hlen : (backoffResult s).state.errors + rest.length
        = s.errors + (rest.length + 1) := by
      simp [backoffResult]
      omega
    refine ⟨?_, ?_, ?_, ?_⟩
    · rw [hrun]
      simpa [hlen] using ih1
    · rw [hrun]
      exact ih2
    · rw [hrun]
      exact ih3
    · intro _
      rw [hrun]
      cases rest with
      | nil =>
        simp [runIters, backoffResult]
      | cons e rest2 =>
        have hcons : (runIters (e :: rest2) (backoffResult s).state).2
            = (worker_iter e (backoffResult s).state).sleep
              :: (runIters rest2 (worker_iter e (backoffResult s).state).state).2 := by
          simp [runIters]
        rw [hcons, List.getLast?_cons_cons, ← hcons]
        have := ih4 (by simp)
        rw [this, hlen]
        simp [List.length_cons]

/-- Characterization of an iteration whose poll succeeds (HTTP 200 with a
decoded body): the settings-sync result threads into every job branch. -/
theorem worker_iter_success (env : IterEnv) (s : LoopState) (data : JVal)
    (hg : gate_blocks s.settings env.tzOk env.day env.tnow = false)
    (hp : env.poll = .resp 200 (.ok data)) :
    worker_iter env s =
      (let sv := sync_settings data s.settings s.settings_version
       let job := data.getD "job" JVal.null
       if job.truthy then
         if job_id_ok job then
           if env.compExc then
             ⟨⟨0 + 1, sv.1, sv.2.1⟩, some (min (POLL_INTERVAL * (0 + 1)) 60), false,
              sv.2.2, some (process_job env.backend env.elapsed job)⟩
           else
             ⟨⟨0, sv.1, sv.2.1⟩, none, false, sv.2.2,
              some (process_job env.backend env.elapsed job)⟩
         else
           ⟨⟨0 + 1, sv.1, sv.2.1⟩, some (min (POLL_INTERVAL * (0 + 1)) 60), false,
            sv.2.2, none⟩
       else ⟨⟨0, sv.1, sv.2.1⟩, some POLL_INTERVAL, false, sv.2.2, none⟩) := by
  unfold worker_iter
  rw [hp]
  simp [hg]

/-- Settings sync, absent or falsy `config_sync`: nothing changes. -/
theorem sync_settings_absent (data settings : JVal) (ver : Int)
    (h : (data.getD "config_sync" JVal.null).truthy = false) :
    sync_settings data settings ver = (settings, ver, none) := by
  simp [sync_settings, h]

/-- Settings sync, incoming version not strictly newer: nothing changes. -/
theorem sync_settings_stale (data settings : JVal) (ver : Int)
    (ht : (data.getD "config_sync" JVal.null).truthy = true)
    (hle : (data.getD "config_sync" JVal.null).getIntD "settings_version" 0 ≤ ver) :
    sync_settings data settings ver = (settings, ver, none) := by
  simp [sync_settings, ht, not_lt.mpr hle]

/-- Settings sync, strictly newer version with a truthy settings payload:
adopt, persist, bump the version. -/
theorem sync_settings_fresh_truthy (data settings : JVal) (ver : Int)
    (ht : (data.getD "config_sync" JVal.null).truthy = true)
    (hgt : ver < (data.getD "config_sync" JVal.null).getIntD "settings_version" 0)
    (hst : ((data.getD "config_sync" JVal.null).getD "settings" JVal.null).truthy = true) :
    sync_settings data settings ver
      = ((data.getD "config_sync" JVal.null).getD "settings" JVal.null,
         (data.getD "config_sync" JVal.null).getIntD "settings_version" 0,
         some ((data.getD "config_sync" JVal.null).getD "settings" JVal.null)) := by
  simp [sync_settings, ht, hgt, hst]

/-- Settings sync, strictly newer version with a falsy settings payload:
the in-memory settings are overwritten by the falsy value, but nothing is
persisted and the held version does not move. -/
theorem sync_settings_fresh_falsy (data settings : JVal) (ver : Int)
    (ht : (data.getD "config_sync" JVal.null).truthy = true)
    (hgt : ver < (data.getD "config_sync" JVal.null).getIntD "settings_version" 0)
    (hst : ((data.getD "config_sync" JVal.null).getD "settings" JVal.null).truthy = false) :
    sync_settings data settings ver
      = ((data.getD "config_sync" JVal.null).getD "settings" JVal.null, ver, none) := by
  simp [sync_settings, ht, hgt, hst]

/-- The job branches leave the synced settings, version and saved document
untouched: the iteration's settings outcome is exactly `sync_settings`. -/
theorem worker_iter_success_sync (env : IterEnv) (s : LoopState) (data : JVal)
    (hg : gate_blocks s.settings env.tzOk env.day env.tnow = false)
    (hp : env.poll = .resp 200 (.ok data)) :
    (worker_iter env s).state.settings
      = (sync_settings data s.settings s.settings_version).1 ∧
    (worker_iter env s).state.settings_version
      = (sync_settings data s.settings s.settings_version).2.1 ∧
    (worker_iter env s).saved
      = (sync_settings data s.settings s.settings_version).2.2 := by
  rw [worker_iter_success env s data hg hp]
  dsimp only
  split
  · split
    · split <;> exact ⟨rfl, rfl, rfl⟩
    · exact ⟨rfl, rfl, rfl⟩
  · exact ⟨rfl, rfl, rfl⟩

/-- Claim C1 (amended): settings sync on a successful poll.  An incoming
version less than or equal to the held version changes nothing; a strictly
newer version with a truthy settings payload replaces the in-memory
settings, persists them, and bumps the held version; but a strictly newer
version whose settings payload is falsy or absent overwrites the in-memory
settings with that falsy value while persisting nothing and leaving the
held version unchanged. -/
theorem C1_settings_sync (env : IterEnv) (s : LoopState) (data : JVal)
    (hg : gate_blocks s.settings env.tzOk env.day env.tnow = false)
    (hp : env.poll = .resp 200 (.ok data)) :
    ((data.getD "config_sync" JVal.null).truthy = false →
      (worker_iter env s).state.settings = s.settings ∧
      (worker_iter env s).state.settings_version = s.settings_version ∧
      (worker_iter env s).saved = none) ∧
    ((data.getD "config_sync" JVal.null).truthy = true →
      (data.getD "config_sync" JVal.null).getIntD "settings_version" 0
        ≤ s.settings_version →
      (worker_iter env s).state.settings = s.settings ∧
      (worker_iter env s).state.settings_version = s.settings_version ∧
      (worker_iter env s).saved = none) ∧
    ((data.getD "config_sync" JVal.null).truthy = true →
      s.settings_version
        < (data.getD "config_sync" JVal.null).getIntD "settings_version" 0 →
      ((data.getD "config_sync" JVal.null).getD "settings" JVal.null).truthy = true →
      (worker_iter env s).state.settings
        = (data.getD "config_sync" JVal.null).getD "settings" JVal.null ∧
      (worker_iter env s).state.settings_version
        = (data.getD "config_sync" JVal.null).getIntD "settings_version" 0 ∧
      (worker_iter env s).saved
        = some ((data.getD "config_sync" JVal.null).getD "settings" JVal.null)) ∧
    ((data.getD "config_sync" JVal.null).truthy = true →
      s.settings_version
        < (data.getD "config_sync" JVal.null).getIntD "settings_version" 0 →
      ((data.getD "config_sync" JVal.null).getD "settings" JVal.null).truthy = false →
      (worker_iter env s).state.settings
        = (data.getD "config_sync" JVal.null).getD "settings" JVal.null ∧
      (worker_iter env s).state.settings_version = s.settings_version ∧
      (worker_iter env s).saved = none) := by
  obtain ⟨w1, w2, w3⟩ := worker_iter_success_sync env s data hg hp
  refine ⟨fun h => ?_, fun ht hle => ?_, fun ht hgt hst => ?_, fun ht hgt hst => ?_⟩
  · rw [sync_settings_absent data s.settings s.settings_version h] at w1 w2 w3
    exact ⟨w1, w2, w3⟩
  · rw [sync_settings_stale data s.settings s.settings_version ht hle] at w1 w2 w3
    exact ⟨w1, w2, w3⟩
  · rw [sync_settings_fresh_truthy data s.settings s.settings_version ht hgt hst]
      at w1 w2 w3
    exact ⟨w1, w2, w3⟩
  · rw [sync_settings_fresh_falsy data s.settings s.settings_version ht hgt hst]
      at w1 w2 w3
    exact ⟨w1, w2, w3⟩

/-- Counterexample to C1 as stated: a successful poll whose `config_sync`
carries `settings_version` 5 (strictly greater than the held 0) with an
empty (falsy) `settings` document.  The claim requires the held version to
become 5 and the settings to be persisted; the code does neither (while it
does overwrite the in-memory settings with the empty document). -/
theorem C1_counterexample :
    (worker_iter envC1 s0).state.settings_version ≠ 5 ∧
    (worker_iter envC1 s0).state.settings_version = 0 ∧
    (worker_iter envC1 s0).saved = none ∧
    (worker_iter envC1 s0).state.settings = .obj [] :=
  ⟨by decide, by decide, rfl, rfl⟩

/-- Witness for the amended C1: a strictly newer version with a truthy
settings payload is adopted, persisted, and bumps the version. -/
theorem C1_witness :
    (worker_iter envS s0).state.settings
      = (dataCfgNew.getD "config_sync" JVal.null).getD "settings" JVal.null ∧
    (worker_iter envS s0).state.settings_version
      = (dataCfgNew.getD "config_sync" JVal.null).getIntD "settings_version" 0 ∧
    (worker_iter envS s0).saved
      = some ((dataCfgNew.getD "config_sync" JVal.null).getD "settings" JVal.null) :=
  (C1_settings_sync envS s0 dataCfgNew (by decide) rfl).2.2.1 (by decide) (by decide)
    (by decide)

/-- Claim C2 (amended): a failed completion POST is issued exactly once
(no retry) and never terminates the loop, but it is absorbed by the loop's
generic exception handler, which increments the freshly reset error
counter to 1 and sleeps the corresponding backoff before re-polling. -/
theorem C2_completion_failure (env : IterEnv) (s : LoopState) (data : JVal)
    (hg : gate_blocks s.settings env.tzOk env.day env.tnow = false)
    (hp : env.poll = .resp 200 (.ok data))
    (ht : (data.getD "job" JVal.null).truthy = true)
    (hid : job_id_ok (data.getD "job" JVal.null) = true)
    (hc : env.compExc = true) :
    (worker_iter env s).stopped = false ∧
    (worker_iter env s).completed
      = some (process_job env.backend env.elapsed (data.getD "job" JVal.null)) ∧
    (worker_iter env s).state.errors = 1 ∧
    (worker_iter env s).sleep = some (min (POLL_INTERVAL * 1) 60) := by
  rw [worker_iter_success env s data hg hp]
  simp [ht, hid, hc]

/-- Counterexample to C2 as stated: after a successful poll delivers a job
and the completion POST raises, the error counter is 1 (not 0) and the
loop performs a backoff sleep (rather than proceeding directly to the
next poll). -/
theorem C2_counterexample :
    (worker_iter envC2 s0).state.errors ≠ 0 ∧
    (worker_iter envC2 s0).sleep ≠ none ∧
    (worker_iter envC2 s0).state.errors = 1 ∧
    (worker_iter envC2 s0).sleep = some 5 :=
  ⟨by decide, by decide, by decide, by decide⟩

/-- Witness for the amended C2 at the concrete failing-completion
iteration. -/
theorem C2_witness :
    (worker_iter envC2 s0).stopped = false ∧
    (worker_iter envC2 s0).completed
      = some (process_job (.exc "boom") 0 (dataJob.getD "job" JVal.null)) ∧
    (worker_iter envC2 s0).state.errors = 1 ∧
    (worker_iter envC2 s0).sleep = some (min (POLL_INTERVAL * 1) 60) :=
  C2_completion_failure envC2 s0 dataJob (by decide) rfl (by decide) (by decide) rfl

/-- Claim C3 (amended): backoff policy.  After N consecutive transient
poll failures from a clean counter the N-th sleep is
`min(POLL_INTERVAL * N, 60)` and the counter reads N; a successful poll
resets the counter, which stays 0 through the iteration when there is no
job or the job's completion POST succeeds (a failing completion POST
re-increments the freshly reset counter to 1, see C2); and a
schedule-gated iteration leaves the whole state untouched. -/
theorem C3_backoff_policy :
    (∀ (envs : List IterEnv) (s : LoopState), s.errors = 0 →
      (∀ env ∈ envs, isTransientFail env.poll = true ∧
        gate_blocks s.settings env.tzOk env.day env.tnow = false) →
      envs ≠ [] →
      (runIters envs s).1.errors = envs.length ∧
      (runIters envs s).2.getLast?
        = some (some (min (POLL_INTERVAL * envs.length) 60))) ∧
    (∀ (env : IterEnv) (s : LoopState) (data : JVal),
      gate_blocks s.settings env.tzOk env.day env.tnow = false →
      env.poll = .resp 200 (.ok data) →
      ((data.getD "job" JVal.null).truthy = false →
        (worker_iter env s).state.errors = 0) ∧
      ((data.getD "job" JVal.null).truthy = true →
        job_id_ok (data.getD "job" JVal.null) = true →
        env.compExc = false → (worker_iter env s).state.errors = 0)) ∧
    (∀ (env : IterEnv) (s : LoopState),
      gate_blocks s.settings env.tzOk env.day env.tnow = true →
      worker_iter env s = ⟨s, some POLL_INTERVAL, false, none, none⟩) := by
  refine ⟨fun envs s h0 hall hne => ?_, fun env s data hg hp => ?_, fun env s hg => ?_⟩
  · obtain ⟨h1, _, _, h4⟩ := runIters_fail_chain envs s hall
    rw [h0] at h1 h4
    exact ⟨by simpa using h1, by simpa using h4 hne⟩
  · rw [worker_iter_success env s data hg hp]
    constructor
    · intro hjf
      simp [hjf]
    · intro hjt hid hcf
      simp [hjt, hid, hcf]
  · simp [worker_iter, hg]

/-- Counterexample to C3 as stated: a successful poll (carrying a job)
against a state with three prior failures does not leave the counter at 0
at the end of the iteration, because the completion POST raises and the
generic handler increments the freshly reset counter to 1. -/
theorem C3_counterexample :
    (worker_iter envC3 sErr3).state.errors ≠ 0 ∧
    (worker_iter envC3 sErr3).state.errors = 1 :=
  ⟨by decide, by decide⟩

/-- Witness for the amended C3: two consecutive HTTP-500 polls from a
clean state give counter 2 and final sleep `min(POLL_INTERVAL * 2, 60)`,
and a gate-blocked iteration is a pure sleep leaving the state intact. -/
theorem C3_witness :
    ((runIters [envF, envF] s0).1.errors = 2 ∧
     (runIters [envF, envF] s0).2.getLast?
       = some (some (min (POLL_INTERVAL * 2) 60))) ∧
    worker_iter envBlk sBlk = ⟨sBlk, some POLL_INTERVAL, false, none, none⟩ :=
  ⟨C3_backoff_policy.1 [envF, envF] s0 rfl (by decide) (by simp),
   C3_backoff_policy.2.2 envBlk sBlk (by decide)⟩

/-- Claim C4: authentication failure is fatal, and only it is.  A 401 poll
response (with the gate open) exits the loop with the state untouched, no
sleep, no save and no completion call; and conversely the only way an
iteration stops the loop is a 401 poll response behind an open gate. -/
theorem C4_auth_fatal :
    (∀ (env : IterEnv) (s : LoopState) (body : Except String JVal),
      gate_blocks s.settings env.tzOk env.day env.tnow = false →
      env.poll = .resp 401 body →
      worker_iter env s = ⟨s, none, true, none, none⟩) ∧
    (∀ (env : IterEnv) (s : LoopState),
      (worker_iter env s).stopped = true →
      gate_blocks s.settings env.tzOk env.day env.tnow = false ∧
      ∃ body, env.poll = .resp 401 body) := by
  constructor
  · intro env s body hg hp
    unfold worker_iter
    rw [hp]
    simp [hg]
  · intro env s h
    by_cases hg : gate_blocks s.settings env.tzOk env.day env.tnow = true
    · rw [show worker_iter env s = ⟨s, some POLL_INTERVAL, false, none, none⟩ from by
        simp [worker_iter, hg]] at h
      exact absurd h (by simp)
    · have hgf : gate_blocks s.settings env.tzOk env.day env.tnow = false := by
        simpa using hg
      refine ⟨hgf, ?_⟩
      cases hp : env.poll with
      | exc m =>
        rw [worker_iter_fail env s (by simp [hp, isTransientFail]) hgf] at h
        exact absurd h (by simp [backoffResult])
      | resp st body =>
        by_cases h401 : st = 401
        · subst h401
          exact ⟨body, rfl⟩
        · by_cases h200 : st = 200
          · subst h200
            cases body with
            | error m =>
              have hb : worker_iter env s = backoffResult s := by
                unfold worker_iter
                rw [hp]
                simp [hgf]
              rw [hb] at h
              exact absurd h (by simp [backoffResult])
            | ok data =>
              rw [worker_iter_success env s data hgf hp] at h
              dsimp only at h
              split at h
              · split at h
                · split at h <;> exact nomatch h
                · exact nomatch h
              · exact nomatch h
          · have hb : worker_iter env s = backoffResult s :=
              worker_iter_fail env s (by simp [hp, isTransientFail, h200, h401]) hgf
            rw [hb] at h
            exact absurd h (by simp [backoffResult])

/-- Witness for C4: a concrete 401 iteration exits with no sleep, no save
and no completion call. -/
theorem C4_witness :
    worker_iter env401 s0 = ⟨s0, none, true, none, none⟩ :=
  C4_auth_fatal.1 env401 s0 (.ok JVal.null) (by decide) rfl
